import Mathlib

set_option synthInstance.maxHeartbeats 1000000
set_option maxHeartbeats 1000000

/-!
Shallow embedding of the dual-coding terminology prototype
(src/src/App.tsx, main prototype; src/unnamed/part_000, draft variant).
Strings are lists of Unicode code points; the JavaScript string operations
used by the code (toLowerCase, normalize("NFKD"), includes, slice) are
modelled character-wise over the character repertoire occurring in the
repository data.
-/

namespace App

/-- Strings as lists of Unicode code points. -/
abbrev Str := List Char

/-- Character-wise JavaScript toLowerCase, restricted to the character
repertoire of the repository data: ASCII capitals map to their lower-case
forms, U+0100 (capital A with macron) maps to U+0101; every other character
occurring in the data is caseless and maps to itself. -/
def jsLower (c : Char) : Char :=
  if 'A' ≤ c ∧ c ≤ 'Z' then Char.ofNat (c.toNat + 32)
  else if c = 'Ā' then 'ā'
  else c

/-- Character-wise Unicode NFKD decomposition, restricted to the repertoire of
the repository data: U+0101 decomposes to U+0061 followed by the combining
macron U+0304 (and U+0100 to U+0041 followed by U+0304); every other character
in the data is its own decomposition. Note the decomposition never deletes a
character. -/
def nfkdChar (c : Char) : Str :=
  if c = 'ā' then ['a', Char.ofNat 0x304]
  else if c = 'Ā' then ['A', Char.ofNat 0x304]
  else [c]

/-- normalize from App.tsx: lower-case the string, then apply NFKD
normalization; both operations act character-wise on this data. -/
def normalize (s : Str) : Str :=
  (s.map jsLower).flatMap nfkdChar

/-- A NAMASTE code-system entry as laid out in App.tsx. -/
structure NamasteEntry where
  code : Str
  display : Str
  designations : List Str
  system : Str
deriving DecidableEq

/-- First catalog entry of NAMASTE_CODES in App.tsx. -/
def amavata : NamasteEntry :=
  { code := "ASU-1001".data
    display := "Āmavāta".data
    designations := ["Amavata".data, "आमवात".data,
                     "Rheumatic disorder (Ayurveda)".data, "Ama-vata".data]
    system := "https://example.org/fhir/CodeSystem/namaste".data }

/-- Second catalog entry of NAMASTE_CODES in App.tsx. -/
def prameha : NamasteEntry :=
  { code := "ASU-1022".data
    display := "Prameha".data
    designations := ["प्रमेह".data, "Prameha (urinary disorders)".data,
                     "Madhumeha context".data]
    system := "https://example.org/fhir/CodeSystem/namaste".data }

/-- Third catalog entry of NAMASTE_CODES in App.tsx. -/
def vathaNoi : NamasteEntry :=
  { code := "SID-0310".data
    display := "Vatha Noi".data
    designations := ["Vatha Noi (Siddha)".data, " वात दोष विकार ".data]
    system := "https://example.org/fhir/CodeSystem/namaste".data }

/-- NAMASTE_CODES from App.tsx. -/
def NAMASTE_CODES : List NamasteEntry := [amavata, prameha, vathaNoi]

/-- JavaScript String.prototype.startsWith on code-point lists. -/
def strStarts : Str → Str → Bool
  | _, [] => true
  | [], _ :: _ => false
  | c :: t, d :: q => c == d && strStarts t q

/-- JavaScript String.prototype.includes on code-point lists: the second
argument occurs contiguously inside the first. -/
def strIncludes : Str → Str → Bool
  | [], q => q.isEmpty
  | c :: rest, q => strStarts (c :: rest) q || strIncludes rest q

/-- searchNamaste from App.tsx, generalized over the catalog constant the
source closes over (the body is catalog-generic): normalize the query, answer
the empty list on an empty normalized query, otherwise filter the catalog by
normalized substring match on display or any designation and take the first
20 results. -/
def searchList (catalog : List NamasteEntry) (query : Str) : List NamasteEntry :=
  let q := normalize query
  if q.isEmpty then []
  else
    (catalog.filter fun c =>
      strIncludes (normalize c.display) q ||
      c.designations.any fun d => strIncludes (normalize d) q).take 20

/-- searchNamaste from App.tsx applied to its catalog NAMASTE_CODES. -/
def searchNamaste (query : Str) : List NamasteEntry :=
  searchList NAMASTE_CODES query

/-- A target candidate of the concept map in App.tsx. -/
structure TargetCandidate where
  system : Str
  code : Str
  display : Str
  equivalence : Str
deriving DecidableEq

/-- A row of the concept map in App.tsx. -/
structure ConceptMapRow where
  source : Str
  targets : List TargetCandidate
deriving DecidableEq

/-- First row of CONCEPT_MAP in App.tsx. -/
def cmAmavata : ConceptMapRow :=
  { source := "ASU-1001".data
    targets :=
      [⟨"ICD11-TM2".data, "TM2-SK6A".data, "Wind pattern affecting joints".data, "narrower".data⟩,
       ⟨"ICD11-BIOMED".data, "MG30.0".data, "Rheumatoid arthritis, seropositive".data, "broader".data⟩,
       ⟨"ICD11-BIOMED".data, "MB40.Z".data, "Inflammatory polyarthropathy, unspecified".data, "unmatched".data⟩] }

/-- Second row of CONCEPT_MAP in App.tsx. -/
def cmPrameha : ConceptMapRow :=
  { source := "ASU-1022".data
    targets :=
      [⟨"ICD11-TM2".data, "TM2-QP1A".data, "Urination disorder pattern".data, "equivalent".data⟩,
       ⟨"ICD11-BIOMED".data, "5A11".data, "Type 2 diabetes mellitus".data, "related".data⟩] }

/-- Third row of CONCEPT_MAP in App.tsx. -/
def cmVathaNoi : ConceptMapRow :=
  { source := "SID-0310".data
    targets :=
      [⟨"ICD11-TM2".data, "TM2-JA5Z".data, "Accumulation pattern with dampness".data, "inexact".data⟩] }

/-- CONCEPT_MAP from App.tsx. -/
def CONCEPT_MAP : List ConceptMapRow := [cmAmavata, cmPrameha, cmVathaNoi]

/-- translateNamasteToICD from App.tsx: find the concept-map row whose source
equals the given code and return its targets, or the empty list when no row
matches. -/
def translateNamasteToICD (sourceCode : Str) : List TargetCandidate :=
  match CONCEPT_MAP.find? (fun m => m.source == sourceCode) with
  | some row => row.targets
  | none => []

/-- The version constants VERSIONS from App.tsx. -/
structure Versions where
  namasteCsvDate : Str
  icd11Mms : Str
  serviceVersion : Str

/-- VERSIONS from App.tsx. -/
def VERSIONS : Versions :=
  { namasteCsvDate := "2025-08-20".data
    icd11Mms := "2025-01".data
    serviceVersion := "0.1.0-proto".data }

/-- A FHIR coding triple (system, code, display). -/
structure Coding where
  system : Str
  code : Str
  display : Str
deriving DecidableEq

/-- A (system, code) pair, used for status/category codings and meta tags. -/
structure Tag where
  system : Str
  code : Str
deriving DecidableEq

/-- A FHIR codeable concept: a coding list plus a text label. -/
structure CodeableConcept where
  coding : List Coding
  text : Str
deriving DecidableEq

/-- The Condition resource shape produced by buildCondition. -/
structure Condition where
  resourceType : Str
  clinicalStatusCoding : List Tag
  categoryCoding : List Tag
  code : CodeableConcept
  subject : Str
  encounter : Str
  recordedDate : Str
  metaTag : List Tag
deriving DecidableEq

/-- buildCondition from App.tsx. The source reads the wall clock via
new Date().toISOString(); that reading is the explicit parameter now. The
namaste argument carries the (code, display, system) fields the builder
reads from the selected entry. The coding list is the source triple, then
the chosen TM2 candidate if present, then the chosen biomed candidate if
present. -/
def buildCondition (patientId encounterId : Str) (namaste : Coding)
    (chosenTm2 chosenBiomed : Option Coding) (now : Str) : Condition :=
  let coding : List Coding :=
    [⟨namaste.system, namaste.code, namaste.display⟩] ++ chosenTm2.toList ++ chosenBiomed.toList
  { resourceType := "Condition".data
    clinicalStatusCoding :=
      [⟨"http://terminology.hl7.org/CodeSystem/condition-clinical".data, "active".data⟩]
    categoryCoding :=
      [⟨"http://terminology.hl7.org/CodeSystem/condition-category".data, "problem-list-item".data⟩]
    code := { coding := coding, text := namaste.display ++ " (dual-coded)".data }
    subject := "Patient/".data ++ patientId
    encounter := "Encounter/".data ++ encounterId
    recordedDate := now
    metaTag :=
      [⟨"https://example.org/fhir/tags".data, "icd11-mms-".data ++ VERSIONS.icd11Mms⟩,
       ⟨"https://example.org/fhir/tags".data, "namaste-csv-".data ++ VERSIONS.namasteCsvDate⟩] }

/-- One element of the entity list of an AuditEvent in App.tsx, with its
what.display and its single detail record. -/
structure AuditEntity where
  whatDisplay : Str
  detailType : Str
  detailValue : Str
deriving DecidableEq

/-- The AuditEvent resource shape produced by buildAuditEvent in App.tsx. -/
structure AuditEvent where
  resourceType : Str
  typeTag : Tag
  action : Str
  recorded : Str
  outcome : Str
  observerDisplay : Str
  entity : List AuditEntity
deriving DecidableEq

/-- buildAuditEvent from App.tsx; the outcome parameter defaults to "0" at the
source, which the only call site (buildBundle) leaves in place. The clock
reading new Date().toISOString() is the explicit parameter now. Note that the
action string parameter feeds only entity[0].what.display; the resource field
named action is the constant "E". -/
def buildAuditEvent (action : Str) (outcome : Str) (now : Str) : AuditEvent :=
  { resourceType := "AuditEvent".data
    typeTag := ⟨"http://terminology.hl7.org/CodeSystem/audit-event-type".data, "rest".data⟩
    action := "E".data
    recorded := now
    outcome := outcome
    observerDisplay := "Terminology Microservice (proto)".data
    entity := [⟨action, "version".data, VERSIONS.icd11Mms⟩] }

/-- A bundle entry resource: the condition or its audit event. -/
inductive Resource where
  | condition : Condition → Resource
  | audit : AuditEvent → Resource
deriving DecidableEq

/-- The Bundle resource shape produced by buildBundle in App.tsx. -/
structure Bundle where
  resourceType : Str
  type : Str
  entry : List Resource
  metaProfile : List Str
  metaSecurity : List Coding
deriving DecidableEq

/-- The entity label buildBundle passes to buildAuditEvent in App.tsx. -/
def translateLabel : Str := "ConceptMap/$translate NAMASTE→ICD11".data

/-- buildBundle from App.tsx: a collection bundle whose entries are the given
condition followed by the audit event built with the translate label, the
default outcome "0", and the clock reading now. -/
def buildBundle (condition : Condition) (now : Str) : Bundle :=
  { resourceType := "Bundle".data
    type := "collection".data
    entry := [Resource.condition condition,
              Resource.audit (buildAuditEvent translateLabel "0".data now)]
    metaProfile := ["https://abdm.gov.in/fhir/r4/StructureDefinition/Bundle".data]
    metaSecurity :=
      [⟨"http://terminology.hl7.org/CodeSystem/v3-ActReason".data, "ETH".data,
        "with patient consent".data⟩] }

/-- The condition memo of App (App.tsx): when no source entry is selected the
synthesis yields nothing; otherwise buildCondition runs on the selection and
the two per-tab choices. -/
def conditionMemo (selected : Option NamasteEntry)
    (tm2Choice biomedChoice : Option Coding)
    (patientId encounterId : Str) (now : Str) : Option Condition :=
  match selected with
  | none => none
  | some s =>
      some (buildCondition patientId encounterId ⟨s.system, s.code, s.display⟩
              tm2Choice biomedChoice now)

/-- The bundle memo of App (App.tsx): buildBundle on the condition when one
was produced, nothing otherwise. This composition is the synthesize operation
of the specification. -/
def bundleMemo (selected : Option NamasteEntry)
    (tm2Choice biomedChoice : Option Coding)
    (patientId encounterId : Str) (now : Str) : Option Bundle :=
  match conditionMemo selected tm2Choice biomedChoice patientId encounterId now with
  | none => none
  | some c => some (buildBundle c now)

/-- The target-system groups of the chosen candidates as the App presents
them: the TM2 tab contributes at most one candidate of group ICD11-TM2 and
the Biomed tab at most one candidate of group ICD11-BIOMED. -/
def chosenGroups (tm2Choice biomedChoice : Option Coding) : List Str :=
  (tm2Choice.toList.map fun _ => "ICD11-TM2".data) ++
  (biomedChoice.toList.map fun _ => "ICD11-BIOMED".data)

/-- More than one chosen candidate belongs to the same target-system group. -/
def dupGroup (tm2Choice biomedChoice : Option Coding) : Prop :=
  ¬ (chosenGroups tm2Choice biomedChoice).Nodup

/-- Re-stamp every timestamp field of a bundle with the clock value t: the
recordedDate of each condition entry and the recorded field of each audit
entry. Used to state that two synthesis outputs differ at most in their
timestamps. -/
def withClock (b : Bundle) (t : Str) : Bundle :=
  { b with entry := b.entry.map fun r =>
      match r with
      | Resource.condition c => Resource.condition { c with recordedDate := t }
      | Resource.audit a => Resource.audit { a with recorded := t } }

end App

namespace Draft

/-- A NAMASTE entry as laid out in the draft file src/unnamed/part_000 (no
system field there). -/
structure EntryD where
  code : App.Str
  display : App.Str
  designations : List App.Str
deriving DecidableEq

/-- A chosen concept-map target in the draft file: code, display and
equivalence. -/
structure ChosenD where
  code : App.Str
  display : App.Str
  equivalence : App.Str
deriving DecidableEq

/-- buildCondition from the draft file src/unnamed/part_000: nothing when no
source entry is selected; otherwise the coding list is the NAMASTE triple
followed by the chosen targets mapped onto the fixed mms system, in caller
order, and the rest of the Condition uses the draft's fixed subject,
encounter and tag strings. The clock reading is the explicit parameter
now. -/
def buildCondition (selected : Option EntryD) (chosen : List ChosenD)
    (now : App.Str) : Option App.Condition :=
  match selected with
  | none => none
  | some s =>
      some
        { resourceType := "Condition".data
          clinicalStatusCoding :=
            [⟨"http://hl7.org/fhir/condition-clinical".data, "active".data⟩]
          categoryCoding :=
            [⟨"http://hl7.org/fhir/condition-category".data, "problem-list-item".data⟩]
          code :=
            { coding :=
                ⟨"https://example.org/fhir/CodeSystem/namaste".data, s.code, s.display⟩ ::
                  chosen.map (fun c =>
                    ⟨"http://id.who.int/icd/release/11/mms".data, c.code, c.display⟩)
              text := s.display ++ " (dual-coded)".data }
          subject := "Patient/123".data
          encounter := "Encounter/enc-001".data
          recordedDate := now
          metaTag :=
            [⟨"https://example.org/fhir/tags".data, "icd11-mms-2025-01".data⟩,
             ⟨"https://example.org/fhir/tags".data, "namaste-csv-2025-08-20".data⟩] }

/-- The AuditEvent shape inlined in the draft file's buildBundle. -/
structure AuditEventD where
  resourceType : App.Str
  action : App.Str
  recorded : App.Str
  outcome : App.Str
  observerDisplay : App.Str
  entityWhatDisplay : App.Str
deriving DecidableEq

/-- A bundle entry resource in the draft file. -/
inductive ResourceD where
  | condition : App.Condition → ResourceD
  | audit : AuditEventD → ResourceD
deriving DecidableEq

/-- The Bundle shape produced by the draft file's buildBundle. -/
structure BundleD where
  resourceType : App.Str
  type : App.Str
  entry : List ResourceD
deriving DecidableEq

/-- The audit record inlined in the draft file's buildBundle: action "C",
outcome "0", the demo observer label and the translate entity label. -/
def auditRecord (now : App.Str) : AuditEventD :=
  { resourceType := "AuditEvent".data
    action := "C".data
    recorded := now
    outcome := "0".data
    observerDisplay := "Terminology Microservice (demo)".data
    entityWhatDisplay := "ConceptMap/$translate NAMASTE→ICD11".data }

/-- buildBundle from the draft file src/unnamed/part_000: a collection bundle
whose entries are the condition followed by the inlined audit record. -/
def buildBundle (condition : App.Condition) (now : App.Str) : BundleD :=
  { resourceType := "Bundle".data
    type := "collection".data
    entry := [ResourceD.condition condition, ResourceD.audit (auditRecord now)] }

end Draft

/-- The query "mav" occurs contiguously in the display of the first entry. -/
example : App.strIncludes (App.normalize "Āmavāta".data) (App.normalize "mav".data) = true := by
  decide

/-- A whitespace query matches all three entries. -/
example : App.searchNamaste " ".data = App.NAMASTE_CODES := by decide

/-- The diacritic-stripped variant misses the catalog. -/
example : App.searchNamaste "Āmavata".data = [] := by decide

/-- The verbatim designation matches. -/
example : App.searchNamaste "amavata".data = [App.amavata] := by decide

/-! Helper notions and lemmas about the string model. -/

/-- The first string occurs contiguously inside the second. -/
def SubOf (q t : App.Str) : Prop := ∃ l r, t = l ++ q ++ r

theorem strStarts_iff (q : App.Str) :
    ∀ t, App.strStarts t q = true ↔ ∃ r, t = q ++ r := by
  induction q with
  | nil =>
    intro t
    simp [App.strStarts]
  | cons d q ih =>
    intro t
    cases t with
    | nil => simp [App.strStarts]
    | cons c t =>
      rw [App.strStarts, Bool.and_eq_true, beq_iff_eq, ih t]
      constructor
      · rintro ⟨rfl, r, rfl⟩
        exact ⟨r, rfl⟩
      · rintro ⟨r, h⟩
        injection h with h1 h2
        exact ⟨h1, r, h2⟩

theorem strIncludes_iff (q : App.Str) :
    ∀ t, App.strIncludes t q = true ↔ SubOf q t := by
  intro t
  induction t with
  | nil =>
    rw [App.strIncludes]
    constructor
    · intro h
      refine ⟨[], [], ?_⟩
      have : q = [] := by simpa [List.isEmpty_iff] using h
      simp [this]
    · rintro ⟨l, r, h⟩
      rcases List.append_eq_nil.mp h.symm with ⟨h1, h2⟩
      rcases List.append_eq_nil.mp h1 with ⟨-, h3⟩
      simp [h3]
  | cons c t ih =>
    rw [App.strIncludes, Bool.or_eq_true, strStarts_iff, ih]
    constructor
    · rintro (⟨r, h⟩ | ⟨l, r, h⟩)
      · exact ⟨[], r, by simpa using h⟩
      · exact ⟨c :: l, r, by simp [h]⟩
    · rintro ⟨l, r, h⟩
      cases l with
      | nil => exact Or.inl ⟨r, by simpa using h⟩
      | cons x l =>
        injection h with h1 h2
        exact Or.inr ⟨l, r, h2⟩

instance (q t : App.Str) : Decidable (SubOf q t) :=
  decidable_of_iff (App.strIncludes t q = true) (strIncludes_iff q t)

theorem normalize_append (a b : App.Str) :
    App.normalize (a ++ b) = App.normalize a ++ App.normalize b := by
  simp [App.normalize]

theorem SubOf.normalize {q t : App.Str} (h : SubOf q t) :
    SubOf (App.normalize q) (App.normalize t) := by
  rcases h with ⟨l, r, rfl⟩
  exact ⟨App.normalize l, App.normalize r, by simp [normalize_append]⟩

theorem nfkdChar_ne_nil (c : Char) : App.nfkdChar c ≠ [] := by
  by_cases h1 : c = 'ā' <;> by_cases h2 : c = 'Ā' <;> simp [App.nfkdChar, h1, h2]

theorem normalize_ne_nil {s : App.Str} (h : s ≠ []) : App.normalize s ≠ [] := by
  cases s with
  | nil => exact absurd rfl h
  | cons c t =>
    simp only [App.normalize, List.map_cons, List.flatMap_cons, ne_eq,
      List.append_eq_nil, not_and]
    intro hc
    exact absurd hc (nfkdChar_ne_nil (App.jsLower c))

/-! Claim theorems. -/

/-- Claim C1: for every selected source entry, every sequence of chosen
targets, and every subject/encounter id pair, the synthesized Condition's
code.coding list is the source triple (system, code, display) first, followed
by each chosen target triple in the order supplied by the caller with no
re-sorting; with zero chosen targets the coding list is exactly the source
triple; and code.text equals the source display concatenated with
" (dual-coded)". Stated for the main prototype's buildCondition (whose chosen
targets arrive as the optional TM2 choice followed by the optional biomed
choice) and for the draft file's buildCondition (whose chosen targets arrive
as an arbitrary caller-ordered list). -/
theorem c1_coding_order (patientId encounterId : App.Str) (namaste : App.Coding)
    (tm2 biomed : Option App.Coding) (sel : Draft.EntryD)
    (chosen : List Draft.ChosenD) (now : App.Str) :
    (App.buildCondition patientId encounterId namaste tm2 biomed now).code.coding =
      { system := namaste.system, code := namaste.code, display := namaste.display } ::
        (tm2.toList ++ biomed.toList) ∧
    (App.buildCondition patientId encounterId namaste tm2 biomed now).code.text =
      namaste.display ++ " (dual-coded)".data ∧
    (App.buildCondition patientId encounterId namaste none none now).code.coding =
      [{ system := namaste.system, code := namaste.code, display := namaste.display }] ∧
    (Draft.buildCondition (some sel) chosen now).map (fun c => c.code.coding) =
      some (⟨"https://example.org/fhir/CodeSystem/namaste".data, sel.code, sel.display⟩ ::
        chosen.map fun c =>
          ⟨"http://id.who.int/icd/release/11/mms".data, c.code, c.display⟩) ∧
    (Draft.buildCondition (some sel) chosen now).map (fun c => c.code.text) =
      some (sel.display ++ " (dual-coded)".data) ∧
    (Draft.buildCondition (some sel) [] now).map (fun c => c.code.coding) =
      some [⟨"https://example.org/fhir/CodeSystem/namaste".data, sel.code, sel.display⟩] :=
  ⟨rfl, rfl, rfl, rfl, rfl, rfl⟩

/-- Claim C2: synthesize (the App's condition/bundle memo composition, the
Resource Synthesizer of the specification) is total on well-typed inputs; it
yields no output exactly when the source entry is absent or the chosen
targets contain more than one candidate from the same target-system group
(the latter is unsatisfiable through the App's two single-choice slots, so
the failure condition reduces to an absent source); in every other case it
returns the composite bundle built from the selection. Returning none models
the InvalidSelection failure of the specification. -/
theorem c2_synthesize_fails_iff (selected : Option App.NamasteEntry)
    (tm2 biomed : Option App.Coding) (patientId encounterId now : App.Str) :
    (App.bundleMemo selected tm2 biomed patientId encounterId now = none ↔
      (selected = none ∨ App.dupGroup tm2 biomed)) ∧
    (∀ s, selected = some s →
      App.bundleMemo selected tm2 biomed patientId encounterId now =
        some (App.buildBundle
          (App.buildCondition patientId encounterId
            ⟨s.system, s.code, s.display⟩ tm2 biomed now)
          now)) := by
  have hnodup : (App.chosenGroups tm2 biomed).Nodup := by
    cases tm2 <;> cases biomed <;> simp [App.chosenGroups]
  constructor
  · cases selected with
    | none => simp [App.bundleMemo, App.conditionMemo]
    | some s => simp [App.bundleMemo, App.conditionMemo, App.dupGroup, hnodup]
  · rintro s rfl
    rfl

/-- Witness for C2 at a concrete selection. -/
theorem c2_witness :
    App.bundleMemo (some App.amavata) none none "123".data "enc-001".data
        "2025-09-01T00:00:00.000Z".data =
      some (App.buildBundle
        (App.buildCondition "123".data "enc-001".data
          ⟨App.amavata.system, App.amavata.code, App.amavata.display⟩ none none
          "2025-09-01T00:00:00.000Z".data)
        "2025-09-01T00:00:00.000Z".data) :=
  (c2_synthesize_fails_iff (some App.amavata) none none "123".data "enc-001".data
      "2025-09-01T00:00:00.000Z".data).2 App.amavata rfl

/-- Claim C3 counterexample: at a concrete successful synthesis of the main
prototype, the bundle's audit record carries action "E", not "C" — the FHIR
serialization of create that the claim asserts — so the claim as stated is
false on the main prototype. -/
theorem c3_counterexample :
    (App.buildBundle
        (App.buildCondition "123".data "enc-001".data
          ⟨App.prameha.system, App.prameha.code, App.prameha.display⟩ none none
          "T".data)
        "T".data).entry =
      [App.Resource.condition
        (App.buildCondition "123".data "enc-001".data
          ⟨App.prameha.system, App.prameha.code, App.prameha.display⟩ none none
          "T".data),
       App.Resource.audit (App.buildAuditEvent App.translateLabel "0".data "T".data)] ∧
    (App.buildAuditEvent App.translateLabel "0".data "T".data).action = "E".data ∧
    "E".data ≠ "C".data :=
  ⟨rfl, rfl, by decide⟩

/-- Claim C3 (amended): for every successful synthesis the bundle's resource
sequence is exactly the Condition followed by its paired AuditEvent, in that
order, and the audit record carries outcome "0" (success, never "4" /
minorFailure); its action field is the constant "E" in the main prototype and
"C" in the draft file. -/
theorem c3_bundle_shape (c : App.Condition) (now : App.Str) :
    (App.buildBundle c now).entry =
      [App.Resource.condition c,
       App.Resource.audit (App.buildAuditEvent App.translateLabel "0".data now)] ∧
    (App.buildAuditEvent App.translateLabel "0".data now).outcome = "0".data ∧
    (App.buildAuditEvent App.translateLabel "0".data now).action = "E".data ∧
    "0".data ≠ "4".data ∧
    (Draft.buildBundle c now).entry =
      [Draft.ResourceD.condition c, Draft.ResourceD.audit (Draft.auditRecord now)] ∧
    (Draft.auditRecord now).action = "C".data ∧
    (Draft.auditRecord now).outcome = "0".data :=
  ⟨rfl, rfl, rfl, by decide, rfl, rfl, rfl⟩

/-- Claim C4 counterexample: the query "Āmavata" is a diacritic-altered
variant of the display field "Āmavāta" of catalog entry ASU-1001 (its second
macron removed; the display is a substring of itself), yet search returns the
empty list, which does not include the entry: the code's normalization
decomposes characters but does not strip combining marks, so it is not
diacritic-insensitive. -/
theorem c4_counterexample :
    App.amavata ∈ App.NAMASTE_CODES ∧
    App.amavata.display = "Āmavāta".data ∧
    SubOf "Āmavāta".data App.amavata.display ∧
    App.searchNamaste "Āmavata".data = [] := by
  decide

/-- Claim C4 (amended): for every catalog entry e, search of any query whose
normalization is a nonempty contiguous substring of the normalization of
e.display or of one of e.designations returns a result including e. In
particular this holds for every nonempty verbatim substring of those fields
and for every case-altered variant of such a substring (whose normalization
coincides), but not for diacritic-altered variants, since normalization
decomposes without stripping combining marks. -/
theorem c4_search_substring (e : App.NamasteEntry) (q : App.Str)
    (he : e ∈ App.NAMASTE_CODES) (hq : q ≠ [])
    (hsub : (SubOf q e.display ∨ ∃ d ∈ e.designations, SubOf q d) ∨
            (SubOf (App.normalize q) (App.normalize e.display) ∨
             ∃ d ∈ e.designations, SubOf (App.normalize q) (App.normalize d))) :
    e ∈ App.searchNamaste q := by
  have hn : SubOf (App.normalize q) (App.normalize e.display) ∨
      ∃ d ∈ e.designations, SubOf (App.normalize q) (App.normalize d) := by
    rcases hsub with (h | ⟨d, hd, hs⟩) | h
    · exact Or.inl h.normalize
    · exact Or.inr ⟨d, hd, hs.normalize⟩
    · exact h
  have hne : (App.normalize q).isEmpty = false := by
    simpa [List.isEmpty_iff] using normalize_ne_nil hq
  have hpred : (App.strIncludes (App.normalize e.display) (App.normalize q) ||
      e.designations.any fun d =>
        App.strIncludes (App.normalize d) (App.normalize q)) = true := by
    rw [Bool.or_eq_true]
    rcases hn with h | ⟨d, hd, hs⟩
    · exact Or.inl ((strIncludes_iff _ _).mpr h)
    · exact Or.inr (List.any_eq_true.mpr ⟨d, hd, (strIncludes_iff _ _).mpr hs⟩)
  have hfil : e ∈ App.NAMASTE_CODES.filter fun c =>
      App.strIncludes (App.normalize c.display) (App.normalize q) ||
      c.designations.any fun d =>
        App.strIncludes (App.normalize d) (App.normalize q) :=
    List.mem_filter.mpr ⟨he, hpred⟩
  have hlen : (App.NAMASTE_CODES.filter fun c =>
      App.strIncludes (App.normalize c.display) (App.normalize q) ||
      c.designations.any fun d =>
        App.strIncludes (App.normalize d) (App.normalize q)).length ≤ 20 :=
    le_trans (List.length_filter_le _ _) (by decide)
  simp only [App.searchNamaste, App.searchList, hne, Bool.false_eq_true,
    if_false, ite_false]
  rw [List.take_of_length_le hlen]
  exact hfil

/-- Witness for C4 at the entry ASU-1001 and the verbatim display substring
"mav". -/
theorem c4_witness : App.amavata ∈ App.searchNamaste "mav".data :=
  c4_search_substring App.amavata "mav".data (by decide) (by decide)
    (Or.inl (Or.inl (by decide)))

/-- Claim C5 counterexample: the whitespace-only query " " does not return
the empty sequence — the code only special-cases the empty normalized query,
and every catalog entry has a display or designation containing a space. -/
theorem c5_counterexample : App.searchNamaste " ".data ≠ [] := by decide

/-- Claim C5 (amended): search of the empty string returns the empty sequence
(for every catalog), but whitespace-only queries are not special-cased: they
are matched like any other query, and on this catalog the query " " returns
all three entries. -/
theorem c5_empty_query (catalog : List App.NamasteEntry) :
    App.searchList catalog [] = [] ∧
    App.searchNamaste " ".data = App.NAMASTE_CODES :=
  ⟨rfl, by decide⟩

/-- Claim C6: for every query string and every catalog (of any size), the
sequence returned by search has length at most 20 (searchNamaste is
searchList applied to the catalog NAMASTE_CODES). -/
theorem c6_search_capped (catalog : List App.NamasteEntry) (query : App.Str) :
    (App.searchList catalog query).length ≤ 20 := by
  simp only [App.searchList]
  split
  · simp
  · exact le_trans (Nat.le_of_eq (List.length_take _ _))
      (Nat.min_le_left _ _)

/-- Claim C7: translate never fails: it returns the concept map's declared
candidate list, in declared order, for any source code present in the index,
and the empty sequence for any source code absent from it. -/
theorem c7_translate_total (row : App.ConceptMapRow) (c : App.Str)
    (hrow : row ∈ App.CONCEPT_MAP) :
    App.translateNamasteToICD row.source = row.targets ∧
    ((∀ r ∈ App.CONCEPT_MAP, r.source ≠ c) →
      App.translateNamasteToICD c = []) := by
  constructor
  · fin_cases hrow <;> decide
  · intro h
    have hfind : App.CONCEPT_MAP.find? (fun m => m.source == c) = none :=
      List.find?_eq_none.mpr fun r hr => by simpa using h r hr
    simp [App.translateNamasteToICD, hfind]

/-- Witness for C7: the mapped code ASU-1001 yields the first row's declared
targets; the unmapped code ASU-9999 yields the empty sequence. -/
theorem c7_witness :
    App.translateNamasteToICD "ASU-1001".data = App.cmAmavata.targets ∧
    App.translateNamasteToICD "ASU-9999".data = [] :=
  ⟨(c7_translate_total App.cmAmavata "ASU-9999".data (by decide)).1,
   (c7_translate_total App.cmAmavata "ASU-9999".data (by decide)).2 (by decide)⟩

/-- Claim C8: for every query, the matching entries appear in the search
result in the catalog's insertion order — the result is a sublist of the
catalog (stable, no relevance re-ordering) and has no duplicates. -/
theorem c8_search_stable (query : App.Str) :
    (App.searchNamaste query).Sublist App.NAMASTE_CODES ∧
    (App.searchNamaste query).Nodup := by
  have hsub : (App.searchNamaste query).Sublist App.NAMASTE_CODES := by
    simp only [App.searchNamaste, App.searchList]
    split
    · exact List.nil_sublist _
    · exact (List.take_sublist _ _).trans (List.filter_sublist _)
  exact ⟨hsub, hsub.nodup (by decide)⟩

/-- Claim C9: two synthesize calls with identical inputs but possibly
different clock values produce identical code (coding list and text label)
and differ at most in the recordedDate/recorded timestamp fields; with the
clock also fixed the entire output is identical. -/
theorem c9_clock_determinism (patientId encounterId : App.Str)
    (namaste : App.Coding) (tm2 biomed : Option App.Coding) (t u : App.Str) :
    (App.buildCondition patientId encounterId namaste tm2 biomed t).code =
      (App.buildCondition patientId encounterId namaste tm2 biomed u).code ∧
    App.buildCondition patientId encounterId namaste tm2 biomed u =
      { App.buildCondition patientId encounterId namaste tm2 biomed t with
          recordedDate := u } ∧
    App.buildBundle (App.buildCondition patientId encounterId namaste tm2 biomed u) u =
      App.withClock
        (App.buildBundle (App.buildCondition patientId encounterId namaste tm2 biomed t) t)
        u ∧
    (t = u →
      App.buildBundle (App.buildCondition patientId encounterId namaste tm2 biomed t) t =
        App.buildBundle (App.buildCondition patientId encounterId namaste tm2 biomed u) u) := by
  refine ⟨rfl, rfl, rfl, ?_⟩
  rintro rfl
  rfl

/-- Witness for C9 at a concrete selection and a fixed clock value. -/
theorem c9_witness :
    App.buildBundle
        (App.buildCondition "123".data "enc-001".data
          ⟨App.prameha.system, App.prameha.code, App.prameha.display⟩ none none
          "T0".data)
        "T0".data =
      App.buildBundle
        (App.buildCondition "123".data "enc-001".data
          ⟨App.prameha.system, App.prameha.code, App.prameha.display⟩ none none
          "T0".data)
        "T0".data :=
  (c9_clock_determinism "123".data "enc-001".data
      ⟨App.prameha.system, App.prameha.code, App.prameha.display⟩ none none
      "T0".data "T0".data).2.2.2 rfl

/-- Claim C10: for every string argument a and outcome argument o in the set
drawn from "0" and "4", the AuditEvent returned by buildAuditEvent in the
main prototype has action equal to the constant "E"; the a argument never
influences the action field and appears only as entity[0].what.display
(replacing it in the entity list is the only change another a produces), so
no caller can obtain an AuditEvent with action "C". -/
theorem c10_audit_action_constant (a b o now : App.Str)
    (_ho : o = "0".data ∨ o = "4".data) :
    (App.buildAuditEvent a o now).action = "E".data ∧
    (App.buildAuditEvent a o now).entity =
      [⟨a, "version".data, App.VERSIONS.icd11Mms⟩] ∧
    { App.buildAuditEvent a o now with
        entity := [⟨b, "version".data, App.VERSIONS.icd11Mms⟩] } =
      App.buildAuditEvent b o now ∧
    (App.buildAuditEvent a o now).action ≠ "C".data :=
  ⟨rfl, rfl, rfl, show ("E".data : App.Str) ≠ "C".data by decide⟩

/-- Witness for C10 at concrete arguments. -/
theorem c10_witness :
    (App.buildAuditEvent "x".data "0".data "T".data).action = "E".data ∧
    (App.buildAuditEvent "x".data "0".data "T".data).entity =
      [⟨"x".data, "version".data, App.VERSIONS.icd11Mms⟩] ∧
    { App.buildAuditEvent "x".data "0".data "T".data with
        entity := [⟨"y".data, "version".data, App.VERSIONS.icd11Mms⟩] } =
      App.buildAuditEvent "y".data "0".data "T".data ∧
    (App.buildAuditEvent "x".data "0".data "T".data).action ≠ "C".data :=
  c10_audit_action_constant "x".data "y".data "0".data "T".data (Or.inl rfl)
